import Mathlib

/-!
Shallow embedding of the `itext2bin` utility.

Bytes are modelled as `List Nat` with each element `< 256`. Fallible Python
functions become `Except PyErr`-valued Lean functions; the distinct Python
exception classes become constructors of `PyErr`. The operating-system
boundary (executable lookup on `PATH`, the environment variable
`ITEXT2BIN_MODEL_PATH`, and the blocking subprocess call) is abstracted as a
`ProcEnv` record of functions supplied by the caller; everything after that
boundary follows `itext2bin.py` line by line. Standard base64
(`base64.b64encode` / `base64.b64decode` with `validate=True`) is embedded
concretely over ASCII byte values.
-/

/-- Error taxonomy of the Python module: `LlamaZipNotFoundError`
(a `RuntimeError` subclass), `LlamaZipModelPathError` (a `ValueError`
subclass), plain `RuntimeError` for compression failure, `binascii.Error`
for invalid base64, and plain `ValueError` from the framing function. -/
inductive PyErr where
  | llamaZipNotFoundError (msg : String)
  | llamaZipModelPathError (msg : String)
  | runtimeError (msg : String)
  | binasciiError (msg : String)
  | valueError (msg : String)
  deriving DecidableEq

/-- Result of `subprocess.run`: exit status, captured stdout as bytes, and
captured stderr (modelled after its UTF-8 decoding, which is the only form
the code uses it in). -/
structure ProcResult where
  returncode : Int
  stdout : List Nat
  stderr : String
  deriving DecidableEq

/-- The operating-system boundary: `shutil.which`, the environment lookup
`os.environ.get "ITEXT2BIN_MODEL_PATH"`, and `subprocess.run` as a function
from command line and stdin bytes to a process result. -/
structure ProcEnv where
  which : String → Option String
  envModelPath : Option String
  run : List String → List Nat → ProcResult

/-- Options matching the llama-zip CLI (the `LlamaZipOptions` dataclass). -/
structure LlamaZipOptions where
  n_ctx : Int
  window_overlap : String
  n_gpu_layers : Int
  compressed_format : String
  deriving DecidableEq

/-- Defaults of the `LlamaZipOptions` dataclass:
`n_ctx = 8192`, `window_overlap = "25%"`, `n_gpu_layers = -1`,
`compressed_format = "base64"`. -/
def defaultLlamaZipOptions : LlamaZipOptions := ⟨8192, "25%", -1, "base64"⟩

/-- The standard base64 alphabet, as a map from a sextet value `0..63` to the
ASCII code of its digit (`A-Z`, `a-z`, `0-9`, `+`, `/`). -/
def encB64 (i : Nat) : Nat :=
  if i < 26 then 65 + i
  else if i < 52 then 97 + (i - 26)
  else if i < 62 then 48 + (i - 52)
  else if i = 62 then 43
  else 47

/-- Inverse of the base64 alphabet: ASCII code of a digit to its sextet
value; `none` for a byte outside the alphabet (including the pad `=`). -/
def decB64 (c : Nat) : Option Nat :=
  if 65 ≤ c ∧ c ≤ 90 then some (c - 65)
  else if 97 ≤ c ∧ c ≤ 122 then some (c - 97 + 26)
  else if 48 ≤ c ∧ c ≤ 57 then some (c - 48 + 52)
  else if c = 43 then some 62
  else if c = 47 then some 63
  else none

/-- Standard base64 encoding (`base64.b64encode`): bytes in, ASCII codes of
the encoded text out, with `=` (ASCII 61) padding. -/
def b64encode : List Nat → List Nat
  | a :: b :: c :: rest =>
      encB64 (a / 4) :: encB64 (a % 4 * 16 + b / 16) ::
        encB64 (b % 16 * 4 + c / 64) :: encB64 (c % 64) :: b64encode rest
  | [a, b] => [encB64 (a / 4), encB64 (a % 4 * 16 + b / 16), encB64 (b % 16 * 4), 61]
  | [a] => [encB64 (a / 4), encB64 (a % 4 * 16), 61, 61]
  | [] => []

/-- Validating base64 decoding (`base64.b64decode` with `validate=True`):
input length must be a multiple of four, every byte must be a base64 digit
or a correctly placed pad, and padding may occur only in the final group. -/
def b64decode : List Nat → Option (List Nat)
  | [] => some []
  | c1 :: c2 :: c3 :: c4 :: rest =>
      match decB64 c1, decB64 c2 with
      | some v1, some v2 =>
          if c3 = 61 then
            if c4 = 61 ∧ rest = [] then some [v1 * 4 + v2 / 16] else none
          else
            match decB64 c3 with
            | some v3 =>
                if c4 = 61 then
                  if rest = [] then some [v1 * 4 + v2 / 16, v2 % 16 * 16 + v3 / 4]
                  else none
                else
                  match decB64 c4 with
                  | some v4 =>
                      (b64decode rest).map
                        (fun tl =>
                          (v1 * 4 + v2 / 16) :: (v2 % 16 * 16 + v3 / 4) ::
                            (v3 % 4 * 64 + v4) :: tl)
                  | none => none
            | none => none
      | _, _ => none
  | _ => none

/-- ASCII whitespace as recognised by Python's `bytes.strip`. -/
def pyWhitespace (c : Nat) : Bool :=
  c = 9 || c = 10 || c = 11 || c = 12 || c = 13 || c = 32

/-- Python `bytes.strip()`: drop ASCII whitespace from both ends. -/
def bstrip (l : List Nat) : List Nat :=
  ((l.dropWhile pyWhitespace).reverse.dropWhile pyWhitespace).reverse

/-- Python `text.encode("utf-8")` as a list of byte values. -/
def utf8Bytes (s : String) : List Nat :=
  s.toUTF8.data.toList.map UInt8.toNat

/-- Python `repr` of a string without special characters: single quotes. -/
def pyStrRepr (s : String) : String := "'" ++ s ++ "'"

/-- Python `repr` of a list of strings, as used by `f"Command: {cmd!r}"`. -/
def pyListRepr (l : List String) : String :=
  "[" ++ String.intercalate ", " (l.map pyStrRepr) ++ "]"

/-- The `LlamaZipNotFoundError` message of `_run_llama_zip_compress_base64`. -/
def notFoundMsg (llama_zip_bin : String) : String :=
  "Could not find `" ++ llama_zip_bin ++ "` on PATH. Install llama-zip and ensure the " ++
    "CLI is available, e.g. `pip3 install .` in the llama-zip repo."

/-- The `LlamaZipModelPathError` message of `_run_llama_zip_compress_base64`. -/
def modelPathMsg : String :=
  "Missing model path. Provide `model_path=...` or set ITEXT2BIN_MODEL_PATH."

/-- The `RuntimeError` message raised on a nonzero exit status. -/
def compressionFailedMsg (cmd : List String) (code : Int) (stderrText : String) : String :=
  "llama-zip compression failed.\nCommand: " ++ pyListRepr cmd ++
    "\nExit code: " ++ toString code ++ "\nstderr:\n" ++ stderrText

/-- Frame a payload with a one-byte length header
(`_frame_with_1byte_len_header`): reject payloads longer than `0xFF` bytes
with a `ValueError`, otherwise prepend the length byte. -/
def _frame_with_1byte_len_header (payload : List Nat) : Except PyErr (List Nat) :=
  if payload.length > 255 then
    Except.error (PyErr.valueError
      ("Compressed payload too large for 8-bit length header: " ++
        toString payload.length ++ " bytes"))
  else
    Except.ok (payload.length :: payload)

/-- The command line built by `_run_llama_zip_compress_base64`:
`[exe, model_path, "-f", fmt, "--n-ctx", n, "-w", w, "--n-gpu-layers", g, "-c"]`. -/
def buildCmd (exe model_path : String) (options : LlamaZipOptions) : List String :=
  [exe, model_path, "-f", options.compressed_format, "--n-ctx",
    toString options.n_ctx, "-w", options.window_overlap, "--n-gpu-layers",
    toString options.n_gpu_layers, "-c"]

/-- The subprocess wrapper `_run_llama_zip_compress_base64`: locate the
executable, check the model path, run the child process on the UTF-8 bytes of
`text`, fail on a nonzero exit status, validate the stripped stdout as
base64, and return it. -/
def _run_llama_zip_compress_base64 (env : ProcEnv) (text : String)
    (model_path : String) (options : LlamaZipOptions) (llama_zip_bin : String) :
    Except PyErr (List Nat) :=
  match env.which llama_zip_bin with
  | none => Except.error (PyErr.llamaZipNotFoundError (notFoundMsg llama_zip_bin))
  | some exe =>
      if model_path = "" then
        Except.error (PyErr.llamaZipModelPathError modelPathMsg)
      else
        let cmd := buildCmd exe model_path options
        let proc := env.run cmd (utf8Bytes text)
        if proc.returncode ≠ 0 then
          Except.error (PyErr.runtimeError
            (compressionFailedMsg cmd proc.returncode proc.stderr))
        else
          let out := bstrip proc.stdout
          match b64decode out with
          | none => Except.error (PyErr.binasciiError "Invalid base64-encoded string")
          | some _ => Except.ok out

/-- Top-level `IText2Bin`: resolve options defaults, resolve the model path
(explicit argument, else environment variable, else `""` via `or ""`), run the
compressor, decode its base64 output, frame the payload, and re-encode. -/
def IText2Bin (env : ProcEnv) (text : String) (model_path : Option String)
    (options : Option LlamaZipOptions) (llama_zip_bin : String) :
    Except PyErr (List Nat) :=
  let opts := options.getD defaultLlamaZipOptions
  let mp := match model_path with
    | none => env.envModelPath
    | some m => some m
  match _run_llama_zip_compress_base64 env text (mp.getD "") opts llama_zip_bin with
  | Except.error e => Except.error e
  | Except.ok compressed_b64 =>
      match b64decode compressed_b64 with
      | none => Except.error (PyErr.binasciiError "Invalid base64-encoded string")
      | some payload =>
          match _frame_with_1byte_len_header payload with
          | Except.error e => Except.error e
          | Except.ok framed => Except.ok (b64encode framed)

/-- Stub OS boundary whose child process succeeds and prints `AA==`. -/
def stubPipelineEnv : ProcEnv :=
  ⟨fun _ => some "/bin/llama-zip", none, fun _ _ => ⟨0, [65, 65, 61, 61], ""⟩⟩

/-- Stub OS boundary whose child process succeeds and prints `QUJD` with
surrounding whitespace. -/
def stubValidateEnv : ProcEnv :=
  ⟨fun _ => some "/bin/llama-zip", none, fun _ _ => ⟨0, [32, 81, 85, 74, 68, 10], ""⟩⟩

/-- Stub OS boundary whose child process exits with status 1 and diagnostic
output `boom`. -/
def stubFailEnv : ProcEnv :=
  ⟨fun _ => some "/bin/llama-zip", none, fun _ _ => ⟨1, [], "boom"⟩⟩

/-- Stub OS boundary with the executable present but no model path from the
environment. -/
def stubNoModelEnv : ProcEnv :=
  ⟨fun _ => some "/bin/llama-zip", none, fun _ _ => ⟨0, [65, 65, 61, 61], ""⟩⟩

/-- Stub OS boundary with the executable present and `ITEXT2BIN_MODEL_PATH`
set to a usable location. -/
def stubEnvVarSetEnv : ProcEnv :=
  ⟨fun _ => some "/bin/llama-zip", some "/models/m.gguf", fun _ _ => ⟨0, [65, 65, 61, 61], ""⟩⟩

/-- Stub OS boundary where the executable is absent from the search path and
the model path is also missing. -/
def stubNoToolEnv : ProcEnv :=
  ⟨fun _ => none, none, fun _ _ => ⟨0, [], ""⟩⟩

/-- Decoding inverts the base64 alphabet on sextet values. -/
theorem decB64_encB64 : ∀ i < 64, decB64 (encB64 i) = some i := by decide

/-- No base64 digit is the pad byte `=` (ASCII 61). -/
theorem encB64_ne_pad : ∀ i < 64, encB64 i ≠ 61 := by decide

/-- Decoding is a left inverse of encoding on byte sequences. -/
theorem b64RoundTripAux :
    ∀ l : List Nat, (∀ x ∈ l, x < 256) → b64decode (b64encode l) = some l
  | [] => fun _ => rfl
  | [a] => fun h => by
      have ha : a < 256 := h a (by simp)
      have h1 : a / 4 < 64 := by omega
      have h2 : a % 4 * 16 < 64 := by omega
      simp only [b64encode, b64decode, decB64_encB64 _ h1, decB64_encB64 _ h2]
      simp only [Option.some.injEq, List.cons.injEq, and_true, if_pos rfl,
        reduceIte, and_self]
      omega
  | [a, b] => fun h => by
      have ha : a < 256 := h a (by simp)
      have hb : b < 256 := h b (by simp)
      have h1 : a / 4 < 64 := by omega
      have h2 : a % 4 * 16 + b / 16 < 64 := by omega
      have h3 : b % 16 * 4 < 64 := by omega
      have h3ne : encB64 (b % 16 * 4) ≠ 61 := encB64_ne_pad _ h3
      simp only [b64encode, b64decode, decB64_encB64 _ h1, decB64_encB64 _ h2,
        decB64_encB64 _ h3, h3ne, if_false, reduceIte]
      simp only [Option.some.injEq, List.cons.injEq, and_true]
      constructor <;> omega
  | a :: b :: c :: d :: rest => fun h => by
      have ha : a < 256 := h a (by simp)
      have hb : b < 256 := h b (by simp)
      have hc : c < 256 := h c (by simp)
      have ih := b64RoundTripAux (d :: rest) (fun x hx => h x (by simp [hx]))
      have h1 : a / 4 < 64 := by omega
      have h2 : a % 4 * 16 + b / 16 < 64 := by omega
      have h3 : b % 16 * 4 + c / 64 < 64 := by omega
      have h4 : c % 64 < 64 := by omega
      have h3ne : encB64 (b % 16 * 4 + c / 64) ≠ 61 := encB64_ne_pad _ h3
      have h4ne : encB64 (c % 64) ≠ 61 := encB64_ne_pad _ h4
      simp only [b64encode, b64decode, decB64_encB64 _ h1, decB64_encB64 _ h2,
        decB64_encB64 _ h3, decB64_encB64 _ h4, h3ne, h4ne, if_false, reduceIte, ih,
        Option.map_some', Option.some.injEq, List.cons.injEq, eq_self_iff_true,
        and_true]
      omega
  | [a, b, c] => fun h => by
      have ha : a < 256 := h a (by simp)
      have hb : b < 256 := h b (by simp)
      have hc : c < 256 := h c (by simp)
      have h1 : a / 4 < 64 := by omega
      have h2 : a % 4 * 16 + b / 16 < 64 := by omega
      have h3 : b % 16 * 4 + c / 64 < 64 := by omega
      have h4 : c % 64 < 64 := by omega
      have h3ne : encB64 (b % 16 * 4 + c / 64) ≠ 61 := encB64_ne_pad _ h3
      have h4ne : encB64 (c % 64) ≠ 61 := encB64_ne_pad _ h4
      simp only [b64encode, b64decode, decB64_encB64 _ h1, decB64_encB64 _ h2,
        decB64_encB64 _ h3, decB64_encB64 _ h4, h3ne, h4ne, if_false, reduceIte,
        Option.map_some', Option.some.injEq, List.cons.injEq, eq_self_iff_true,
        and_true]
      omega

/-- C1: for every payload `p` of bytes with `0 ≤ len p ≤ 255` (including the
boundary `len p = 255`), `_frame_with_1byte_len_header p` returns a byte
string of length `len p + 1` whose first byte equals `len p` and whose
remaining bytes equal `p` unchanged, byte-for-byte, in order. -/
theorem frame_header_ok (p : List Nat) (h : p.length ≤ 255) :
    _frame_with_1byte_len_header p = Except.ok (p.length :: p) ∧
      (p.length :: p).length = p.length + 1 ∧
      (p.length :: p).head? = some p.length ∧
      (p.length :: p).tail = p := by
  refine ⟨?_, rfl, rfl, rfl⟩
  unfold _frame_with_1byte_len_header
  rw [if_neg (by omega)]

/-- Witness for C1 at the boundary payload of 255 bytes. -/
theorem frame_header_ok_witness :
    _frame_with_1byte_len_header (List.replicate 255 7) =
      Except.ok (255 :: List.replicate 255 7) := by
  have h := (frame_header_ok (List.replicate 255 7)
    (by rw [List.length_replicate])).1
  rw [List.length_replicate] at h
  exact h

/-- C2: for every payload `p` with `len p > 255` (including the boundary
`len p = 256`), `_frame_with_1byte_len_header p` raises the oversized-payload
`ValueError`; there is no partial-success mode — the call produces only this
error, never a truncated or split frame. -/
theorem frame_oversized_error (p : List Nat) (h : 255 < p.length) :
    _frame_with_1byte_len_header p =
      Except.error (PyErr.valueError
        ("Compressed payload too large for 8-bit length header: " ++
          toString p.length ++ " bytes")) := by
  unfold _frame_with_1byte_len_header
  rw [if_pos (by omega)]

/-- Witness for C2 at the boundary payload of 256 bytes. -/
theorem frame_oversized_error_witness :
    _frame_with_1byte_len_header (List.replicate 256 0) =
      Except.error (PyErr.valueError
        ("Compressed payload too large for 8-bit length header: " ++
          toString (256 : Nat) ++ " bytes")) := by
  have h := frame_oversized_error (List.replicate 256 0)
    (by rw [List.length_replicate]; omega)
  rw [List.length_replicate] at h
  exact h

/-- C4: for every byte sequence `b`, decoding the base64 encoding of `b`
yields `b` back unchanged; in particular this holds for framed payloads. -/
theorem b64_decode_encode (b : List Nat) (h : ∀ x ∈ b, x < 256) :
    b64decode (b64encode b) = some b :=
  b64RoundTripAux b h

/-- Witness for C4 at the framed `hello\x00world` payload of the spec's
concrete scenario 3 (11 payload bytes, 12 framed bytes). -/
theorem b64_decode_encode_witness :
    b64decode (b64encode [11, 104, 101, 108, 108, 111, 0, 119, 111, 114, 108, 100]) =
      some [11, 104, 101, 108, 108, 111, 0, 119, 111, 114, 108, 100] :=
  b64_decode_encode [11, 104, 101, 108, 108, 111, 0, 119, 111, 114, 108, 100] (by decide)

/-- C5: when the child process exits with status 0,
`_run_llama_zip_compress_base64` validates that the captured stdout (after
trimming surrounding whitespace) is well-formed base64 — raising a decoding
error if it is not — and returns the trimmed output. -/
theorem run_success_validates (env : ProcEnv) (text model_path : String)
    (options : LlamaZipOptions) (llama_zip_bin exe : String)
    (hw : env.which llama_zip_bin = some exe) (hm : model_path ≠ "")
    (h0 : (env.run (buildCmd exe model_path options) (utf8Bytes text)).returncode = 0) :
    (b64decode (bstrip (env.run (buildCmd exe model_path options) (utf8Bytes text)).stdout) =
        none →
      _run_llama_zip_compress_base64 env text model_path options llama_zip_bin =
        Except.error (PyErr.binasciiError "Invalid base64-encoded string")) ∧
    (∀ v,
      b64decode (bstrip (env.run (buildCmd exe model_path options) (utf8Bytes text)).stdout) =
          some v →
      _run_llama_zip_compress_base64 env text model_path options llama_zip_bin =
        Except.ok
          (bstrip (env.run (buildCmd exe model_path options) (utf8Bytes text)).stdout)) := by
  constructor
  · intro hnone
    simp [_run_llama_zip_compress_base64, hw, hm, h0, hnone]
  · intro v hsome
    simp [_run_llama_zip_compress_base64, hw, hm, h0, hsome]

/-- Witness for C5: a stub child process that exits 0 and prints `QUJD`
surrounded by whitespace; the wrapper returns the trimmed base64 bytes. -/
theorem run_success_validates_witness :
    _run_llama_zip_compress_base64 stubValidateEnv "hi" "model.gguf"
        defaultLlamaZipOptions "llama-zip" =
      Except.ok [81, 85, 74, 68] := by
  have h := (run_success_validates stubValidateEnv "hi" "model.gguf"
    defaultLlamaZipOptions "llama-zip" "/bin/llama-zip" rfl (by decide) rfl).2
    [65, 66, 67] (by decide)
  exact h.trans rfl

/-- C6: whenever the child process exits with a nonzero status,
`_run_llama_zip_compress_base64` raises the `RuntimeError` whose message is
built from the constructed command, the exit status, and the captured stderr
content, so the message includes all three; the error is returned as is, with
no retry. -/
theorem run_failure_error (env : ProcEnv) (text model_path : String)
    (options : LlamaZipOptions) (llama_zip_bin exe : String)
    (hw : env.which llama_zip_bin = some exe) (hm : model_path ≠ "")
    (h0 : (env.run (buildCmd exe model_path options) (utf8Bytes text)).returncode ≠ 0) :
    _run_llama_zip_compress_base64 env text model_path options llama_zip_bin =
      Except.error (PyErr.runtimeError
        ("llama-zip compression failed.\nCommand: " ++
          pyListRepr (buildCmd exe model_path options) ++
          "\nExit code: " ++
          toString (env.run (buildCmd exe model_path options) (utf8Bytes text)).returncode ++
          "\nstderr:\n" ++
          (env.run (buildCmd exe model_path options) (utf8Bytes text)).stderr)) := by
  simp [_run_llama_zip_compress_base64, hw, hm, h0, compressionFailedMsg]

/-- Witness for C6: a stub child process that exits with status 1 and writes
`boom` to stderr; the raised message carries the command, exit code 1 and the
stderr text. -/
theorem run_failure_error_witness :
    _run_llama_zip_compress_base64 stubFailEnv "hi" "model.gguf"
        defaultLlamaZipOptions "llama-zip" =
      Except.error (PyErr.runtimeError
        ("llama-zip compression failed.\nCommand: " ++
          "['/bin/llama-zip', 'model.gguf', '-f', 'base64', '--n-ctx', '8192', " ++
          "'-w', '25%', '--n-gpu-layers', '-1', '-c']" ++
          "\nExit code: 1\nstderr:\nboom")) := by
  have h := run_failure_error stubFailEnv "hi" "model.gguf" defaultLlamaZipOptions
    "llama-zip" "/bin/llama-zip" rfl (by decide) (by decide)
  exact h.trans rfl

/-- C10: the executable lookup precedes the model-path check: when the
executable is absent from the search path, both the wrapper and `IText2Bin`
raise the tool-not-found error whatever the model path is (even when it is
also missing), and a missing-configuration error can only arise after the
executable was found. -/
theorem which_precedes_model_check (env : ProcEnv) (text model_path : String)
    (options : LlamaZipOptions) (llama_zip_bin : String) :
    (env.which llama_zip_bin = none →
      _run_llama_zip_compress_base64 env text model_path options llama_zip_bin =
        Except.error (PyErr.llamaZipNotFoundError (notFoundMsg llama_zip_bin))) ∧
    (∀ msg,
      _run_llama_zip_compress_base64 env text model_path options llama_zip_bin =
          Except.error (PyErr.llamaZipModelPathError msg) →
      ∃ exe, env.which llama_zip_bin = some exe) ∧
    (∀ mp opts, env.which llama_zip_bin = none →
      IText2Bin env text mp opts llama_zip_bin =
        Except.error (PyErr.llamaZipNotFoundError (notFoundMsg llama_zip_bin))) := by
  refine ⟨?_, ?_, ?_⟩
  · intro hw
    simp [_run_llama_zip_compress_base64, hw]
  · intro msg hrun
    cases hwe : env.which llama_zip_bin with
    | none => simp [_run_llama_zip_compress_base64, hwe] at hrun
    | some exe => exact ⟨exe, rfl⟩
  · intro mp opts hw
    simp [IText2Bin, _run_llama_zip_compress_base64, hw]

/-- Witness for C10: with a stub search path lacking the executable and no
model path at all, `IText2Bin` raises the tool-not-found error. -/
theorem which_precedes_model_check_witness :
    IText2Bin stubNoToolEnv "hi" none none "llama-zip" =
      Except.error (PyErr.llamaZipNotFoundError (notFoundMsg "llama-zip")) :=
  (which_precedes_model_check stubNoToolEnv "hi" "" defaultLlamaZipOptions
    "llama-zip").2.2 none none rfl

/-- C7: when the executable is found but no model location is supplied — the
argument is `none` and `ITEXT2BIN_MODEL_PATH` is unset — `IText2Bin` fails
with the `LlamaZipModelPathError` naming both the explicit parameter and the
environment variable. -/
theorem missing_model_path_error (env : ProcEnv) (text : String)
    (options : Option LlamaZipOptions) (llama_zip_bin exe : String)
    (hw : env.which llama_zip_bin = some exe) (henv : env.envModelPath = none) :
    IText2Bin env text none options llama_zip_bin =
      Except.error (PyErr.llamaZipModelPathError
        "Missing model path. Provide `model_path=...` or set ITEXT2BIN_MODEL_PATH.") := by
  simp [IText2Bin, _run_llama_zip_compress_base64, hw, henv, modelPathMsg]

/-- Witness for C7: a stub with the executable present, no explicit model
path and the environment variable unset. -/
theorem missing_model_path_error_witness :
    IText2Bin stubNoModelEnv "hi" none none "llama-zip" =
      Except.error (PyErr.llamaZipModelPathError
        "Missing model path. Provide `model_path=...` or set ITEXT2BIN_MODEL_PATH.") :=
  missing_model_path_error stubNoModelEnv "hi" none "llama-zip" "/bin/llama-zip" rfl rfl

/-- C8: the explicit `model_path` argument wins: with `some m` supplied the
environment variable is never consulted (the result is identical for any
environment value), the supplied value `m` is the one passed to the
invocation step, and the environment value is used only when the argument is
`none` (in which case the call behaves exactly as if that value had been
passed explicitly). -/
theorem explicit_model_path_wins (w : String → Option String) (e1 e2 : Option String)
    (r : List String → List Nat → ProcResult) (text m : String)
    (options : Option LlamaZipOptions) (llama_zip_bin : String) :
    IText2Bin ⟨w, e1, r⟩ text (some m) options llama_zip_bin =
      IText2Bin ⟨w, e2, r⟩ text (some m) options llama_zip_bin ∧
    IText2Bin ⟨w, e1, r⟩ text (some m) options llama_zip_bin =
      (match _run_llama_zip_compress_base64 ⟨w, e1, r⟩ text m
          (options.getD defaultLlamaZipOptions) llama_zip_bin with
       | Except.error e => Except.error e
       | Except.ok compressed_b64 =>
           match b64decode compressed_b64 with
           | none => Except.error (PyErr.binasciiError "Invalid base64-encoded string")
           | some payload =>
               match _frame_with_1byte_len_header payload with
               | Except.error e => Except.error e
               | Except.ok framed => Except.ok (b64encode framed)) ∧
    (∀ v, IText2Bin ⟨w, some v, r⟩ text none options llama_zip_bin =
      IText2Bin ⟨w, e2, r⟩ text (some v) options llama_zip_bin) :=
  ⟨rfl, rfl, fun _ => rfl⟩

/-- C9: an explicitly supplied empty-string model path suppresses the
environment fallback, so with the executable present the call raises the
missing-configuration error even when `ITEXT2BIN_MODEL_PATH` is set to a
usable location. -/
theorem empty_model_path_suppresses_env (env : ProcEnv) (text : String)
    (options : Option LlamaZipOptions) (llama_zip_bin exe : String)
    (hw : env.which llama_zip_bin = some exe) :
    IText2Bin env text (some "") options llama_zip_bin =
      Except.error (PyErr.llamaZipModelPathError
        "Missing model path. Provide `model_path=...` or set ITEXT2BIN_MODEL_PATH.") := by
  simp [IText2Bin, _run_llama_zip_compress_base64, hw, modelPathMsg]

/-- Witness for C9: the environment variable points at a usable model, yet
the explicit empty string still yields the missing-configuration error. -/
theorem empty_model_path_suppresses_env_witness :
    IText2Bin stubEnvVarSetEnv "hi" (some "") none "llama-zip" =
      Except.error (PyErr.llamaZipModelPathError
        "Missing model path. Provide `model_path=...` or set ITEXT2BIN_MODEL_PATH.") :=
  empty_model_path_suppresses_env stubEnvVarSetEnv "hi" none "llama-zip"
    "/bin/llama-zip" rfl

/-- A successful run of the wrapper implies its returned bytes were validated
as base64. -/
theorem run_ok_decodes (env : ProcEnv) (text model_path : String)
    (options : LlamaZipOptions) (llama_zip_bin : String) (t : List Nat)
    (h : _run_llama_zip_compress_base64 env text model_path options llama_zip_bin =
      Except.ok t) :
    ∃ v, b64decode t = some v := by
  cases hwe : env.which llama_zip_bin with
  | none => simp [_run_llama_zip_compress_base64, hwe] at h
  | some exe =>
    by_cases hm : model_path = ""
    · simp [_run_llama_zip_compress_base64, hwe, hm] at h
    · by_cases h0 :
        (env.run (buildCmd exe model_path options) (utf8Bytes text)).returncode = 0
      · cases hb : b64decode
          (bstrip (env.run (buildCmd exe model_path options) (utf8Bytes text)).stdout) with
        | none => simp [_run_llama_zip_compress_base64, hwe, hm, h0, hb] at h
        | some v =>
          simp [_run_llama_zip_compress_base64, hwe, hm, h0, hb] at h
          exact ⟨v, h ▸ hb⟩
      · simp [_run_llama_zip_compress_base64, hwe, hm, h0] at h

/-- C3: when the invocation step succeeds and yields base64 text `t`,
`IText2Bin` decodes `t` to raw bytes, frames them with the one-byte length
header, re-applies base64 and returns the result; any failure of the
invocation or framing step propagates unchanged with no retry. -/
theorem itext2bin_pipeline (env : ProcEnv) (text : String)
    (model_path : Option String) (options : Option LlamaZipOptions)
    (llama_zip_bin : String) :
    (∀ t, _run_llama_zip_compress_base64 env text
          ((match model_path with
            | none => env.envModelPath
            | some m => some m).getD "")
          (options.getD defaultLlamaZipOptions) llama_zip_bin = Except.ok t →
      ∃ payload, b64decode t = some payload ∧
        IText2Bin env text model_path options llama_zip_bin =
          (match _frame_with_1byte_len_header payload with
           | Except.error e => Except.error e
           | Except.ok framed => Except.ok (b64encode framed))) ∧
    (∀ e, _run_llama_zip_compress_base64 env text
          ((match model_path with
            | none => env.envModelPath
            | some m => some m).getD "")
          (options.getD defaultLlamaZipOptions) llama_zip_bin = Except.error e →
      IText2Bin env text model_path options llama_zip_bin = Except.error e) := by
  constructor
  · intro t ht
    obtain ⟨v, hv⟩ := run_ok_decodes env text _ _ llama_zip_bin t ht
    refine ⟨v, hv, ?_⟩
    simp only [IText2Bin]
    rw [ht]
    simp only [hv]
  · intro e he
    simp only [IText2Bin]
    rw [he]

/-- Witness for C3: a stub compressor that prints `AA==` (the base64 of the
single byte 0); the pipeline frames `[0]` and re-encodes. -/
theorem itext2bin_pipeline_witness :
    b64decode [65, 65, 61, 61] = some [0] ∧
    IText2Bin stubPipelineEnv "hi" (some "model.gguf") none "llama-zip" =
      Except.ok (b64encode [1, 0]) := by
  obtain ⟨p, hp, hi⟩ := (itext2bin_pipeline stubPipelineEnv "hi" (some "model.gguf")
    none "llama-zip").1 [65, 65, 61, 61] rfl
  have hp0 : p = [0] := by
    have h2 : (some p : Option (List Nat)) = some [0] := hp.symm.trans rfl
    exact Option.some.inj h2
  subst hp0
  exact ⟨hp, hi.trans rfl⟩
